import Mathlib

/-!
Verification of the Matrix channel adapter (`src/channels/matrix.ts`).

The development shallowly embeds the connection-state-aware outbound queue,
the flush loop, the inbound timeline-event classifier and the credential
dispatch of `connect`.  External effects (the network transmission performed
by `client.sendMessage`, asynchronous calls to `disconnect`) are resolved by
explicit oracles: a `FlushEvent` schedule decides, for each flush iteration,
whether the transmission succeeds, fails, or whether `disconnect` fired
between the pop and the connected check inside `sendMessage`.
-/

/-- Entry of the outbound delivery queue; mirrors the element type
`{ jid: string; text: string }` of `outgoingQueue` (matrix.ts line 31). -/
structure QueuedMessage where
  jid : String
  text : String
deriving DecidableEq

/-- The adapter state relevant to the outbound path: the `connected` flag
(line 29) and the `outgoingQueue` array (line 31). -/
structure MatrixState where
  connected : Bool
  outgoingQueue : List QueuedMessage
deriving DecidableEq

/-- One transmission attempt observed at the transport: the message handed to
`client.sendMessage` and whether that call succeeded. -/
structure Attempt where
  msg : QueuedMessage
  ok : Bool
deriving DecidableEq

/-- Embedding of `sendMessage` (matrix.ts lines 159-181).  `transmitOk`
resolves the outcome of the awaited `client.sendMessage` call.  The second
component is the transmission attempt made at the transport, if any:
`none` when the adapter is not connected (the message is only queued),
`some` with the recorded outcome otherwise.  The catch block of the source
absorbs a failed transmission into a queue push, so the function is total:
no error propagates to the caller. -/
def sendMessage (st : MatrixState) (roomId text : String) (transmitOk : Bool) :
    MatrixState × Option Attempt :=
  if !st.connected then
    ({ st with outgoingQueue := st.outgoingQueue ++ [⟨roomId, text⟩] }, none)
  else if transmitOk then
    (st, some ⟨⟨roomId, text⟩, true⟩)
  else
    ({ st with outgoingQueue := st.outgoingQueue ++ [⟨roomId, text⟩] }, some ⟨⟨roomId, text⟩, false⟩)

/-- Environment oracle for one iteration of the flush loop: the transmission
succeeds (`ok`), fails (`fail`), or `disconnect` was called after the item
was popped and before `sendMessage` read the `connected` flag
(`disconnect`). -/
inductive FlushEvent
  | ok
  | fail
  | disconnect
deriving DecidableEq

/-- Embedding of `flushOutgoingQueue` (matrix.ts lines 217-226): while the
queue is non-empty and the adapter is connected, pop the head and hand it to
`sendMessage`.  The schedule supplies one `FlushEvent` per iteration; the
run stops early when the loop guard fails, and stops (with the loop still
logically running) when the schedule is exhausted.  Returns the final state
and the chronological list of transmission attempts. -/
def flushOutgoingQueue : List FlushEvent → MatrixState → MatrixState × List Attempt
  | [], st => (st, [])
  | _ :: _, ⟨false, q⟩ => (⟨false, q⟩, [])
  | _ :: _, ⟨true, []⟩ => (⟨true, []⟩, [])
  | e :: es, ⟨true, item :: rest⟩ =>
    let step := sendMessage ⟨!(e == FlushEvent.disconnect), rest⟩ item.jid item.text
      (e == FlushEvent.ok)
    let next := flushOutgoingQueue es step.1
    (next.1, step.2.toList ++ next.2)

/-- The exit condition of the `while` loop of `flushOutgoingQueue`
(line 218): the flush has completed exactly when the queue is empty or the
adapter is no longer connected. -/
def flushDone (st : MatrixState) : Bool :=
  st.outgoingQueue.isEmpty || !st.connected

/-- A complete flush: runs `flushOutgoingQueue` under the given schedule and
returns the result only if the loop has actually terminated by then;
`none` means the loop is still running and demands more transmission
outcomes. -/
def flushRun (sched : List FlushEvent) (st : MatrixState) :
    Option (MatrixState × List Attempt) :=
  let r := flushOutgoingQueue sched st
  if flushDone r.1 then some r else none

/-- Messages successfully transmitted in a trace, in chronological order. -/
def successes (tr : List Attempt) : List QueuedMessage :=
  (tr.filter fun a => a.ok).map fun a => a.msg

/-- Repeated `sendMessage` calls issued on a fresh adapter (initial state:
disconnected, empty queue, matrix.ts lines 29-31).  The transmission oracle
is irrelevant while disconnected. -/
def sendAllDisconnected (calls : List QueuedMessage) : MatrixState :=
  calls.foldl (fun s c => (sendMessage s c.jid c.text true).1) ⟨false, []⟩

/-- JavaScript truthiness-based fallback `a || b` for a value of type
`string | undefined`: the fallback is taken when the value is `undefined`
or the empty string. -/
def jsOr (a : Option String) (b : String) : String :=
  match a with
  | some s => if s = "" then b else s
  | none => b

/-- Embedding of JavaScript `s.startsWith(pat)`: `pat` is a leading
substring of `s` (on the character sequences). -/
def startsWithStr (s pat : String) : Bool :=
  pat.toList.isPrefixOf s.toList

/-- The fields of an inbound timeline event that the handler reads:
`event.getType()`, `event.getSender()` (possibly `undefined`),
`event.getContent().body` (possibly absent), `event.getId()` (possibly
`undefined`) and `event.getTs()` in milliseconds.  The ISO-8601 rendering of
the timestamp (line 107) is an injective formatting left out of the model;
the raw milliseconds stand for it. -/
structure InboundEvent where
  eventType : String
  sender : Option String
  body : Option String
  eventId : Option String
  ts : Nat
deriving DecidableEq

/-- The fields of the `Room` object the handler reads: `room.roomId`,
`room.name` (possibly `undefined` or empty) and the membership table behind
`room.getMember(u)?.name`, modelled as an association list from user id to
display name. -/
structure RoomInfo where
  roomId : String
  name : Option String
  memberName : List (String × String)
deriving DecidableEq

/-- Argument triple of the `onChatMetadata` callback (line 111):
`(roomId, timestamp, roomName)`. -/
structure ChatMetadata where
  chatJid : String
  timestamp : Nat
  name : String
deriving DecidableEq

/-- The normalized message handed to the `onMessage` callback
(lines 119-128), with the field names of `NewMessage` in `types.ts`. -/
structure NewMessage where
  id : String
  chat_jid : String
  sender : String
  sender_name : String
  content : String
  timestamp : Nat
  is_from_me : Bool
  is_bot_message : Bool
deriving DecidableEq

/-- Embedding of the `RoomEvent.Timeline` handler registered by `connect`
(matrix.ts lines 93-130).  `assistantName` is the configured
`ASSISTANT_NAME`, `userId`/`connected` the adapter state at handler run
time, and `registeredGroups` the live registry query
`this.opts.registeredGroups()`, consulted during classification.  Returns
which callbacks fire: the `onChatMetadata` argument (if invoked) and the
`onMessage` argument pair (if invoked). -/
def handleTimeline (assistantName userId : String) (connected : Bool)
    (registeredGroups : String → Bool) (room : Option RoomInfo)
    (ev : InboundEvent) : Option ChatMetadata × Option (String × NewMessage) :=
  match room with
  | none => (none, none)
  | some ri =>
    if ev.eventType ≠ "m.room.message" then (none, none)
    else if ev.sender = some userId then (none, none)
    else if connected = false then (none, none)
    else
      let roomId := ri.roomId
      let body := jsOr ev.body ""
      let roomName := jsOr ri.name roomId
      let meta : ChatMetadata := ⟨roomId, ev.ts, roomName⟩
      if registeredGroups roomId then
        let senderName := jsOr (ri.memberName.lookup (jsOr ev.sender ""))
          (jsOr ev.sender "unknown")
        (some meta,
         some (roomId,
           { id := jsOr ev.eventId ""
             chat_jid := roomId
             sender := jsOr ev.sender ""
             sender_name := senderName
             content := body
             timestamp := ev.ts
             is_from_me := false
             is_bot_message := startsWithStr body (assistantName ++ ":") }))
      else (some meta, none)

/-- A network operation `connect` may perform: the password login
(line 62) or starting the sync client (line 155).  Constructing the client
object (`sdk.createClient`, lines 48, 54, 69) is local and not a network
call. -/
inductive NetAction
  | login
  | startClient
deriving DecidableEq

/-- The environment variables read by `connect` (lines 39-42), each
possibly unset. -/
structure MatrixEnv where
  homeserver : Option String
  username : Option String
  password : Option String
  accessToken : Option String
deriving DecidableEq

/-- JavaScript truthiness of a `string | undefined` environment variable:
set and non-empty. -/
def truthyEnv (o : Option String) : Bool :=
  match o with
  | none => false
  | some s => !(s == "")

/-- Embedding of the entry and credential dispatch of `connect`
(matrix.ts lines 38-79): the homeserver check, then the token / password /
neither three-way branch.  Returns the network calls performed during this
phase together with either `ok` (control proceeds to handler registration
and `startClient`) or the thrown configuration error.  On the error paths
the throw happens before any network call, so the action list is empty and
`startClient` (line 155) is never reached. -/
def connectAuth (env : MatrixEnv) : List NetAction × Except String Unit :=
  if !truthyEnv env.homeserver then
    ([], Except.error "MATRIX_HOMESERVER environment variable is required")
  else if truthyEnv env.accessToken then
    ([], Except.ok ())
  else if truthyEnv env.username && truthyEnv env.password then
    ([NetAction.login], Except.ok ())
  else
    ([], Except.error "Either MATRIX_ACCESS_TOKEN or MATRIX_USERNAME+MATRIX_PASSWORD required")

/-! ## Helper lemmas -/

/-- Once the adapter is disconnected the flush loop performs no further
iteration, whatever the remaining schedule. -/
theorem flushOutgoingQueue_not_connected (es : List FlushEvent) (st : MatrixState)
    (h : st.connected = false) : flushOutgoingQueue es st = (st, []) := by
  cases es with
  | nil => rfl
  | cons e es =>
    cases st with
    | mk c q => cases c with
      | false => rfl
      | true => cases h

/-- A `sendMessage` call on a disconnected adapter only appends to the
queue. -/
theorem sendMessage_not_connected (c : Bool) (q : List QueuedMessage)
    (roomId text : String) (transmitOk : Bool) (h : c = false) :
    sendMessage ⟨c, q⟩ roomId text transmitOk = (⟨c, q ++ [⟨roomId, text⟩]⟩, none) := by
  subst h; rfl

/-- Folding `sendMessage` calls over a disconnected adapter appends the
calls, in order, to the existing queue. -/
theorem sendAll_from (calls : List QueuedMessage) :
    ∀ q : List QueuedMessage,
      calls.foldl (fun s c => (sendMessage s c.jid c.text true).1) ⟨false, q⟩
        = ⟨false, q ++ calls⟩ := by
  induction calls with
  | nil => intro q; simp
  | cons c cs ih =>
    intro q
    have hstep : (sendMessage ⟨false, q⟩ c.jid c.text true).1 = ⟨false, q ++ [c]⟩ := rfl
    simp only [List.foldl_cons, hstep, ih, List.append_assoc, List.singleton_append]

/-- A flush whose schedule answers `ok` for every queued item drains the
queue completely and transmits the items in queue order. -/
theorem flushOutgoingQueue_all_ok (q : List QueuedMessage) :
    flushOutgoingQueue (List.replicate q.length FlushEvent.ok) ⟨true, q⟩
      = (⟨true, []⟩, q.map fun c => ⟨c, true⟩) := by
  induction q with
  | nil => rfl
  | cons item rest ih =>
    have hbe : (FlushEvent.ok == FlushEvent.disconnect) = false := rfl
    simp only [List.length_cons, List.replicate_succ, flushOutgoingQueue, sendMessage]
    simp [hbe, ih]

/-- In an all-successful trace every attempt is a success, in order. -/
theorem successes_all_ok (q : List QueuedMessage) :
    successes (q.map fun c => ⟨c, true⟩) = q := by
  induction q with
  | nil => rfl
  | cons c cs ih => simp [successes] at ih ⊢; exact ih

/-- Character data of a string concatenation. -/
theorem strData_append (s t : String) : (s ++ t).data = s.data ++ t.data :=
  String.data_append s t

/-- `List.isPrefixOf` is preserved by appending the same list on the
left. -/
theorem isPrefixOf_append_same (l : List Char) :
    ∀ t₁ t₂ : List Char, t₁.isPrefixOf t₂ = true →
      (l ++ t₁).isPrefixOf (l ++ t₂) = true := by
  induction l with
  | nil => intro t₁ t₂ h; simpa using h
  | cons a r ih =>
    intro t₁ t₂ h
    simpa [List.isPrefixOf] using ih t₁ t₂ h

/-- Membership carries over from a prefix to the whole list. -/
theorem mem_of_isPrefixOf {c : Char} :
    ∀ {l₁ l₂ : List Char}, l₁.isPrefixOf l₂ = true → c ∈ l₁ → c ∈ l₂ := by
  intro l₁
  induction l₁ with
  | nil => intro l₂ _ hm; cases hm
  | cons a as ih =>
    intro l₂ h hm
    cases l₂ with
    | nil => simp [List.isPrefixOf] at h
    | cons b bs =>
      simp only [List.isPrefixOf, Bool.and_eq_true, beq_iff_eq] at h
      rcases List.mem_cons.mp hm with rfl | hm'
      · exact h.1 ▸ List.mem_cons_self _ _
      · exact List.mem_cons_of_mem _ (ih h.2 hm')

/-- A string with no colon is never prefixed by `name ++ ":"`. -/
theorem startsWithStr_colon_hello (an : String) :
    startsWithStr (an ++ ": hello") (an ++ ":") = true := by
  unfold startsWithStr
  show ((an ++ ":").data).isPrefixOf ((an ++ ": hello").data) = true
  rw [strData_append, strData_append]
  exact isPrefixOf_append_same an.data _ _ (by decide)

/-- `"hello"` contains no colon, so it is not prefixed by any
`name ++ ":"`. -/
theorem startsWithStr_hello_false (an : String) :
    startsWithStr "hello" (an ++ ":") = false := by
  cases hb : startsWithStr "hello" (an ++ ":") with
  | false => rfl
  | true =>
    exfalso
    have hmem : (':' : Char) ∈ (an ++ ":").toList := by
      show (':' : Char) ∈ (an ++ ":").data
      rw [strData_append]
      exact List.mem_append_right _ (by decide)
    have : (':' : Char) ∈ "hello".toList :=
      mem_of_isPrefixOf (by simpa [startsWithStr] using hb) hmem
    simp at this

/-- Inversion of the timeline handler: a message reaches the full-message
callback only through the registered branch, so its fields are the ones
built there. -/
theorem handleTimeline_message_fields (an uid : String) (conn : Bool)
    (groups : String → Bool) (room : Option RoomInfo) (ev : InboundEvent)
    (rid : String) (msg : NewMessage)
    (h : (handleTimeline an uid conn groups room ev).2 = some (rid, msg)) :
    msg.is_from_me = false
    ∧ msg.content = jsOr ev.body ""
    ∧ msg.is_bot_message = startsWithStr (jsOr ev.body "") (an ++ ":") := by
  cases room with
  | none => simp [handleTimeline] at h
  | some ri =>
    simp only [handleTimeline] at h
    split at h
    · simp at h
    · split at h
      · simp at h
      · split at h
        · simp at h
        · split at h
          · simp only [Option.some.injEq, Prod.mk.injEq] at h
            rw [← h.2]
            exact ⟨rfl, rfl, rfl⟩
          · simp at h

/-! ## Claim theorems: outbound queue and flush -/

/-- C1, counterexample: with queue `[(A,m1),(A,m2)]` (same destination,
m1 queued earlier) and schedule fail-ok-ok, the successful transmissions
are `[m2, m1]` — m1 is successfully transmitted after m2, because the
failed m1 was re-queued at the tail.  This refutes strict FIFO of
successful delivery across flushes interrupted by transmission failure. -/
theorem flush_fifo_failure_counterexample :
    successes (flushOutgoingQueue [FlushEvent.fail, FlushEvent.ok, FlushEvent.ok]
      ⟨true, [⟨"A", "m1"⟩, ⟨"A", "m2"⟩]⟩).2
      = [⟨"A", "m2"⟩, ⟨"A", "m1"⟩] := by decide

/-- C1, amended: within a single flush, as long as no mid-iteration
disconnect has occurred, the transmission attempts follow queue order
exactly — the first `k` attempts are the first `k` queued messages, so a
message queued earlier is always attempted before a later one is attempted
or transmitted.  Strict FIFO of successful delivery, however, fails when a
transmission fails (the message is re-queued at the tail and overtaken). -/
theorem flush_attempts_follow_queue_order (k : Nat) :
    ∀ (sched : List FlushEvent) (st : MatrixState),
      st.connected = true → k ≤ st.outgoingQueue.length → k ≤ sched.length →
      (∀ e ∈ sched.take k, e ≠ FlushEvent.disconnect) →
      ((flushOutgoingQueue sched st).2.take k).map Attempt.msg
        = st.outgoingQueue.take k := by
  induction k with
  | zero => intro sched st _ _ _ _; simp
  | succ k ih =>
    intro sched st hc hk hks hnd
    cases sched with
    | nil => simp at hks
    | cons e es =>
      cases st with
      | mk c q =>
        cases q with
        | nil => simp at hk
        | cons item rest =>
          have hc' : c = true := hc
          subst hc'
          have hkr : k ≤ rest.length := Nat.le_of_succ_le_succ (by simpa using hk)
          have hkse : k ≤ es.length := Nat.le_of_succ_le_succ (by simpa using hks)
          have hnd' : ∀ x ∈ es.take k, x ≠ FlushEvent.disconnect := by
            intro x hx
            exact hnd x (by simpa using Or.inr hx)
          have hend : e ≠ FlushEvent.disconnect := hnd e (by simp)
          cases e with
          | disconnect => exact absurd rfl hend
          | ok =>
            have h1 : sendMessage ⟨!(FlushEvent.ok == FlushEvent.disconnect), rest⟩
                item.jid item.text (FlushEvent.ok == FlushEvent.ok)
                = (⟨true, rest⟩, some ⟨item, true⟩) := rfl
            simp only [flushOutgoingQueue, h1, Option.toList_some, List.singleton_append,
              List.take_succ_cons, List.map_cons]
            rw [ih es ⟨true, rest⟩ rfl hkr hkse hnd']
          | fail =>
            have h1 : sendMessage ⟨!(FlushEvent.fail == FlushEvent.disconnect), rest⟩
                item.jid item.text (FlushEvent.fail == FlushEvent.ok)
                = (⟨true, rest ++ [item]⟩, some ⟨item, false⟩) := rfl
            simp only [flushOutgoingQueue, h1, Option.toList_some, List.singleton_append,
              List.take_succ_cons, List.map_cons]
            rw [ih es ⟨true, rest ++ [item]⟩ rfl (by simpa using Nat.le_succ_of_le hkr)
              hkse hnd']
            rw [List.take_append_of_le_length hkr]

theorem flush_attempts_follow_queue_order_witness :
    ((flushOutgoingQueue [FlushEvent.fail, FlushEvent.ok, FlushEvent.ok]
        ⟨true, [⟨"A", "m1"⟩, ⟨"A", "m2"⟩]⟩).2.take 2).map Attempt.msg
      = ([⟨"A", "m1"⟩, ⟨"A", "m2"⟩] : List QueuedMessage).take 2 :=
  flush_attempts_follow_queue_order 2 [FlushEvent.fail, FlushEvent.ok, FlushEvent.ok]
    ⟨true, [⟨"A", "m1"⟩, ⟨"A", "m2"⟩]⟩ rfl (by decide) (by decide) (by decide)

/-- C2, counterexample: with queue `[(A,m1),(B,m2)]`, connected, m1's
transmission failing and m2's succeeding, the flush does NOT complete:
after those two outcomes the loop guard (non-empty queue, still connected)
holds again, so the same flush immediately retries m1 and demands a third
transmission outcome. -/
theorem flush_requeue_scenario_counterexample :
    flushRun [FlushEvent.fail, FlushEvent.ok] ⟨true, [⟨"A", "m1"⟩, ⟨"B", "m2"⟩]⟩
      = none := by decide

/-- C2, amended: after m1's transmission fails and m2's succeeds, the queue
contains exactly `[(A,m1)]` — the failed message re-queued at the tail,
nothing skipped or duplicated — but the flush has not completed there
(`flushDone` is false): still connected with a non-empty queue, the same
flush retries m1, and completes only once the queue empties (for instance
when the retry succeeds) or the connection drops. -/
theorem flush_requeue_scenario_amended :
    flushOutgoingQueue [FlushEvent.fail, FlushEvent.ok]
        ⟨true, [⟨"A", "m1"⟩, ⟨"B", "m2"⟩]⟩
      = (⟨true, [⟨"A", "m1"⟩]⟩, [⟨⟨"A", "m1"⟩, false⟩, ⟨⟨"B", "m2"⟩, true⟩])
    ∧ flushDone ⟨true, [⟨"A", "m1"⟩]⟩ = false
    ∧ flushRun [FlushEvent.fail, FlushEvent.ok, FlushEvent.ok]
        ⟨true, [⟨"A", "m1"⟩, ⟨"B", "m2"⟩]⟩
      = some (⟨true, []⟩,
          [⟨⟨"A", "m1"⟩, false⟩, ⟨⟨"B", "m2"⟩, true⟩, ⟨⟨"A", "m1"⟩, true⟩]) := by
  decide

/-- C3: for every sequence of `sendMessage` calls issued while not
connected, the queue afterwards holds exactly those calls in issue order;
once connected, a flush in which every transmission succeeds transmits them
in exactly that order and ends with an empty queue. -/
theorem queue_drain_in_order (calls : List QueuedMessage) :
    (sendAllDisconnected calls).outgoingQueue = calls
    ∧ flushRun (List.replicate calls.length FlushEvent.ok)
        ⟨true, (sendAllDisconnected calls).outgoingQueue⟩
        = some (⟨true, []⟩, calls.map fun c => ⟨c, true⟩)
    ∧ successes (calls.map fun c => ⟨c, true⟩) = calls := by
  have hq : (sendAllDisconnected calls).outgoingQueue = calls := by
    unfold sendAllDisconnected
    rw [sendAll_from]
    simp
  refine ⟨hq, ?_, successes_all_ok calls⟩
  rw [hq]
  unfold flushRun
  rw [flushOutgoingQueue_all_ok]
  rfl

/-- C4: `sendMessage` never raises to its caller — it is total, and in
every non-transmitting case (not connected, or the transport transmission
failed) the (destination, text) pair is appended to the tail of the queue:
while disconnected no transmission is attempted at all, and a failed
transmission is absorbed into a re-queue rather than an error. -/
theorem sendMessage_never_raises (st : MatrixState) (roomId text : String)
    (transmitOk : Bool) (h : st.connected = false ∨ transmitOk = false) :
    (sendMessage st roomId text transmitOk).1.outgoingQueue
        = st.outgoingQueue ++ [⟨roomId, text⟩]
    ∧ (st.connected = false → (sendMessage st roomId text transmitOk).2 = none)
    ∧ ∀ a, (sendMessage st roomId text transmitOk).2 = some a → a.ok = false := by
  cases st with
  | mk c q =>
    cases c with
    | false =>
      refine ⟨rfl, fun _ => rfl, fun a ha => ?_⟩
      simp [sendMessage] at ha
    | true =>
      rcases h with hc | hok
      · cases hc
      · subst hok
        refine ⟨rfl, ?_, ?_⟩
        · intro hc
          exact absurd hc (by simp)
        · intro a ha
          have h2 : some (⟨⟨roomId, text⟩, false⟩ : Attempt) = some a := ha
          rw [← Option.some.inj h2]

theorem sendMessage_never_raises_witness :
    (sendMessage ⟨false, []⟩ "!a:hs" "m" true).1.outgoingQueue
        = ([] : List QueuedMessage) ++ [⟨"!a:hs", "m"⟩]
    ∧ ((false : Bool) = false → (sendMessage ⟨false, []⟩ "!a:hs" "m" true).2 = none)
    ∧ ∀ a, (sendMessage ⟨false, []⟩ "!a:hs" "m" true).2 = some a → a.ok = false :=
  sendMessage_never_raises ⟨false, []⟩ "!a:hs" "m" true (Or.inl rfl)

/-- C9: when `disconnect` is observed mid-iteration — after the flush loop
popped an item, before `sendMessage` read the connected flag — the popped
item is pushed back into the queue (at the tail), the loop performs no
further attempt regardless of the remaining schedule, and the loop exit
condition holds: the flush terminates without losing the item. -/
theorem flush_disconnect_requeues_and_stops (st : MatrixState)
    (item : QueuedMessage) (rest : List QueuedMessage) (es : List FlushEvent)
    (hq : st.outgoingQueue = item :: rest) (hc : st.connected = true) :
    flushOutgoingQueue (FlushEvent.disconnect :: es) st
        = (⟨false, rest ++ [item]⟩, [])
    ∧ flushDone ⟨false, rest ++ [item]⟩ = true
    ∧ item ∈ rest ++ [item] := by
  cases st with
  | mk c q =>
    have hq' : q = item :: rest := hq
    have hc' : c = true := hc
    subst hq'; subst hc'
    refine ⟨?_, by simp [flushDone], List.mem_append_right _ (List.mem_singleton_self _)⟩
    have h1 : sendMessage ⟨!(FlushEvent.disconnect == FlushEvent.disconnect), rest⟩
        item.jid item.text (FlushEvent.disconnect == FlushEvent.ok)
        = (⟨false, rest ++ [item]⟩, none) := rfl
    simp only [flushOutgoingQueue, h1]
    rw [flushOutgoingQueue_not_connected es ⟨false, rest ++ [item]⟩ rfl]
    rfl

theorem flush_disconnect_requeues_and_stops_witness :
    flushOutgoingQueue (FlushEvent.disconnect :: [FlushEvent.ok])
        ⟨true, [⟨"A", "m1"⟩, ⟨"B", "m2"⟩]⟩
        = (⟨false, [⟨"B", "m2"⟩] ++ [⟨"A", "m1"⟩]⟩, [])
    ∧ flushDone ⟨false, [⟨"B", "m2"⟩] ++ [⟨"A", "m1"⟩]⟩ = true
    ∧ (⟨"A", "m1"⟩ : QueuedMessage) ∈ [⟨"B", "m2"⟩] ++ [⟨"A", "m1"⟩] :=
  flush_disconnect_requeues_and_stops ⟨true, [⟨"A", "m1"⟩, ⟨"B", "m2"⟩]⟩
    ⟨"A", "m1"⟩ [⟨"B", "m2"⟩] [FlushEvent.ok] rfl rfl

/-! ## Claim theorems: inbound classifier and connect -/

/-- Concrete inbound event used by the witnesses. -/
def evSample : InboundEvent :=
  ⟨"m.room.message", some "@user:hs", some "Nano: hello", some "$e1", 5⟩

/-- Concrete room used by the witnesses. -/
def roomSample : RoomInfo := ⟨"!room:hs", some "Lobby", [("@user:hs", "User")]⟩

/-- Concrete registry used by the witnesses: only `!room:hs` is
registered. -/
def groupsSample : String → Bool := fun g => g == "!room:hs"

/-- The message the handler forwards for `evSample` in `roomSample`. -/
def msgSample : NewMessage :=
  ⟨"$e1", "!room:hs", "@user:hs", "User", "Nano: hello", 5, false, true⟩

/-- C5: an inbound message event whose sender is the adapter's own user id,
or one arriving while the adapter is not connected, triggers neither the
metadata callback nor the full-message callback. -/
theorem self_or_disconnected_suppressed (an uid : String) (conn : Bool)
    (groups : String → Bool) (room : Option RoomInfo) (ev : InboundEvent)
    (h : ev.sender = some uid ∨ conn = false) :
    handleTimeline an uid conn groups room ev = (none, none) := by
  cases room with
  | none => rfl
  | some ri =>
    unfold handleTimeline
    rcases h with hs | hc
    · by_cases ht : ev.eventType ≠ "m.room.message"
      · simp [ht]
      · simp [ht, hs]
    · by_cases ht : ev.eventType ≠ "m.room.message"
      · simp [ht]
      · by_cases hsend : ev.sender = some uid
        · simp [ht, hsend]
        · simp [ht, hsend, hc]

theorem self_or_disconnected_suppressed_witness :
    handleTimeline "Nano" "@bot:hs" true groupsSample (some roomSample)
      ⟨"m.room.message", some "@bot:hs", some "hi", some "$e2", 6⟩ = (none, none) :=
  self_or_disconnected_suppressed "Nano" "@bot:hs" true groupsSample (some roomSample)
    ⟨"m.room.message", some "@bot:hs", some "hi", some "$e2", 6⟩ (Or.inl rfl)

/-- C6: for an inbound message event surviving the self-origin and
connected checks, the metadata callback fires with
`(roomId, timestamp, roomName)` regardless of registration, and the
full-message callback fires if and only if the room id is in the registry
as answered by the live `registeredGroups` query at classification time. -/
theorem metadata_always_full_iff_registered (an uid : String) (conn : Bool)
    (groups : String → Bool) (ri : RoomInfo) (ev : InboundEvent)
    (htype : ev.eventType = "m.room.message")
    (hsender : ev.sender ≠ some uid)
    (hconn : conn = true) :
    (handleTimeline an uid conn groups (some ri) ev).1
        = some ⟨ri.roomId, ev.ts, jsOr ri.name ri.roomId⟩
    ∧ ((handleTimeline an uid conn groups (some ri) ev).2.isSome = true
        ↔ groups ri.roomId = true) := by
  subst hconn
  unfold handleTimeline
  by_cases hg : groups ri.roomId
  · simp [htype, hsender, hg]
  · simp [htype, hsender, hg]

theorem metadata_always_full_iff_registered_witness :
    (handleTimeline "Nano" "@bot:hs" true groupsSample (some roomSample) evSample).1
        = some ⟨roomSample.roomId, evSample.ts, jsOr roomSample.name roomSample.roomId⟩
    ∧ ((handleTimeline "Nano" "@bot:hs" true groupsSample
          (some roomSample) evSample).2.isSome = true
        ↔ groupsSample roomSample.roomId = true) :=
  metadata_always_full_iff_registered "Nano" "@bot:hs" true groupsSample roomSample
    evSample rfl (by decide) rfl

/-- C7: every message forwarded to the full-message callback carries
`is_bot_message` true exactly when its body starts with the configured
assistant name followed by the `":"` delimiter; in particular a body
`"<assistantName>: hello"` is tagged true and a body `"hello"` false, for
any assistant name. -/
theorem bot_message_tagging (an uid : String) (conn : Bool)
    (groups : String → Bool) (room : Option RoomInfo) (ev : InboundEvent)
    (rid : String) (msg : NewMessage)
    (h : (handleTimeline an uid conn groups room ev).2 = some (rid, msg)) :
    msg.is_bot_message = startsWithStr msg.content (an ++ ":")
    ∧ startsWithStr (an ++ ": hello") (an ++ ":") = true
    ∧ startsWithStr "hello" (an ++ ":") = false := by
  obtain ⟨-, hcontent, hbot⟩ :=
    handleTimeline_message_fields an uid conn groups room ev rid msg h
  exact ⟨by rw [hbot, hcontent], startsWithStr_colon_hello an,
    startsWithStr_hello_false an⟩

theorem bot_message_tagging_witness :
    msgSample.is_bot_message = startsWithStr msgSample.content ("Nano" ++ ":")
    ∧ startsWithStr ("Nano" ++ ": hello") ("Nano" ++ ":") = true
    ∧ startsWithStr "hello" ("Nano" ++ ":") = false :=
  bot_message_tagging "Nano" "@bot:hs" true groupsSample (some roomSample) evSample
    "!room:hs" msgSample (by decide)

/-- C10: every message delivered through the full-message callback has
`is_from_me = false`; the handler never forwards a message marked as
originating from the adapter itself. -/
theorem forwarded_never_from_me (an uid : String) (conn : Bool)
    (groups : String → Bool) (room : Option RoomInfo) (ev : InboundEvent)
    (rid : String) (msg : NewMessage)
    (h : (handleTimeline an uid conn groups room ev).2 = some (rid, msg)) :
    msg.is_from_me = false :=
  (handleTimeline_message_fields an uid conn groups room ev rid msg h).1

theorem forwarded_never_from_me_witness :
    msgSample.is_from_me = false :=
  forwarded_never_from_me "Nano" "@bot:hs" true groupsSample (some roomSample)
    evSample "!room:hs" msgSample (by decide)

/-- C8: when the homeserver URL is configured but neither an access token
nor a username+password pair is present, `connect` throws the configuration
error during the credential dispatch, before any network call: no login is
attempted and, the throw aborting `connect`, the client is never
started. -/
theorem connect_missing_credentials (env : MatrixEnv)
    (hh : truthyEnv env.homeserver = true)
    (ht : truthyEnv env.accessToken = false)
    (hup : (truthyEnv env.username && truthyEnv env.password) = false) :
    connectAuth env
      = ([], Except.error
          "Either MATRIX_ACCESS_TOKEN or MATRIX_USERNAME+MATRIX_PASSWORD required") := by
  unfold connectAuth
  rw [hh, ht, hup]
  rfl

theorem connect_missing_credentials_witness :
    connectAuth ⟨some "https://hs.example", none, none, none⟩
      = ([], Except.error
          "Either MATRIX_ACCESS_TOKEN or MATRIX_USERNAME+MATRIX_PASSWORD required") :=
  connect_missing_credentials ⟨some "https://hs.example", none, none, none⟩
    (by decide) rfl rfl

